import Mathlib

/-!
Verification of the intake-app upload pipeline (`src/server`): a shallow
embedding of the metadata validator (`models/upload_models.py`), the file
validator and orchestrator (`services/upload_service.py`), the naming/layout
deriver (`services/volume_service.py`) and the HTTP router
(`routers/upload.py`), together with theorems settling the frozen claims.

Python string operations are embedded as structurally recursive functions on
`List Char` (`String` in this Lean version is a structure wrapping
`List Char`), so every definition evaluates by kernel reduction.
-/

/-! ## Python string primitives -/

/-- The six ASCII characters Python's `str.strip()` (and `\s` on ASCII input)
treats as whitespace. -/
def pyIsSpace (c : Char) : Bool :=
  c == ' ' || c == '\t' || c == '\n' || c == '\r' || c == '\x0b' || c == '\x0c'

/-- `str.strip()` on the character list: drop whitespace from both ends. -/
def pyStripL (l : List Char) : List Char :=
  ((l.dropWhile pyIsSpace).reverse.dropWhile pyIsSpace).reverse

/-- Python `s.strip()`. -/
def pyStrip (s : String) : String := String.mk (pyStripL s.data)

/-- Python `s.split(sep)` for a one-character separator: always returns at
least one (possibly empty) piece, e.g. `"".split('.') == [""]` and
`"a.b".split('.') == ["a","b"]`. -/
def pySplit (sep : Char) : List Char → List (List Char)
  | [] => [[]]
  | c :: rest =>
    match pySplit sep rest with
    | [] => [[]]
    | h :: t => if c = sep then [] :: h :: t else (c :: h) :: t

/-- `pySplit` lifted to `String`. -/
def pySplitStr (sep : Char) (s : String) : List String :=
  (pySplit sep s.data).map String.mk

/-- Python `sep.join(xs)`. -/
def pyJoin (sep : String) : List String → String
  | [] => ""
  | [x] => x
  | x :: y :: t => x ++ sep ++ pyJoin sep (y :: t)

/-- Python's negative index `xs[-1]` with a default for the impossible empty
case (`pySplit` never returns an empty list). -/
def pyLastD {α : Type} (d : α) : List α → α
  | [] => d
  | [x] => x
  | _ :: y :: t => pyLastD d (y :: t)

/-- Python `str.lower()` on one character, for the ASCII range the intake app
manipulates (uppercase letters shift down by 32, everything else unchanged). -/
def pyLowerChar (c : Char) : Char :=
  if 65 ≤ c.toNat ∧ c.toNat ≤ 90 then Char.ofNat (c.toNat + 32) else c

/-- Python `s.lower()`. -/
def pyLower (s : String) : String := String.mk (s.data.map pyLowerChar)

/-- Python `s or default` for an optional string: `None` and `""` are falsy. -/
def pyOrStr : Option String → String → String
  | none, d => d
  | some s, d => if s = "" then d else s

/-! ## Configuration and HTTP-level types -/

/-- A FastAPI/Starlette `HTTPException`, reduced to the two fields the service
sets. -/
structure HTTPError where
  status_code : Nat
  detail : String
deriving DecidableEq

/-- The resolved configuration `UploadService.__init__` reads from the
environment: `MAX_FILE_SIZE_MB` (default 100), `ALLOWED_FILE_TYPES`
(default `csv,json,pdf,xlsx,txt`, comma-split) and `DATABRICKS_VOLUME_PATH`. -/
structure Config where
  maxFileSizeMB : Nat
  allowedTypes : List String
  volumePath : String

/-- `self.max_file_size = int(MAX_FILE_SIZE_MB) * 1024 * 1024`. -/
def maxFileSize (cfg : Config) : Nat := cfg.maxFileSizeMB * 1024 * 1024

/-- `os.getenv('ALLOWED_FILE_TYPES', 'csv,json,pdf,xlsx,txt').split(',')`. -/
def defaultAllowedTypes : List String := pySplitStr ',' "csv,json,pdf,xlsx,txt"

/-- A Starlette `UploadFile`: both `filename` and `size` are optional. -/
structure UploadFile where
  filename : Option String
  size : Option Nat

/-! ## Metadata models (`models/upload_models.py`) -/

/-- `ResearchMetadata` restricted to its four required fields. The optional
fields (`experiment_id`, `date_range`, `research_phase`, `privacy_level`) are
not referenced by any claim and are omitted. -/
structure ResearchMetadata where
  project_name : String
  hypothesis : String
  data_source : String
  collection_method : String
deriving DecidableEq

/-- One character of the charset of `validate_project_name`'s regex
`^[a-zA-Z0-9\s\-_]+$` (note: `\s`, so any ASCII whitespace is allowed). -/
def isAsciiAlphanumB (c : Char) : Bool :=
  (97 ≤ c.toNat && c.toNat ≤ 122) || (65 ≤ c.toNat && c.toNat ≤ 90) ||
    (48 ≤ c.toNat && c.toNat ≤ 57)

/-- Membership in the character class of `validate_project_name`'s regex. -/
def projectNameCharOk (c : Char) : Bool :=
  isAsciiAlphanumB c || pyIsSpace c || c == '-' || c == '_'

/-- `ResearchMetadata.validate_project_name`: reject the value unless the
whole string matches `^[a-zA-Z0-9\s\-_]+$` (so it must be nonempty), then
return `v.strip()`.  The stripped return value is NOT re-checked against the
field's `min_length=1` constraint (pydantic runs field constraints on the raw
value, before this validator). -/
def validate_project_name (v : String) : Except String String :=
  if v ≠ "" ∧ v.data.all projectNameCharOk = true then
    Except.ok (pyStrip v)
  else
    Except.error "Project name can only contain letters, numbers, spaces, hyphens, and underscores"

/-- Pydantic's inclusive `min_length`/`max_length` check. -/
def lenOk (s : String) (lo hi : Nat) : Bool := lo ≤ s.length && s.length ≤ hi

/-- Construction of `ResearchMetadata`: each required field's length bounds
(run on the raw value), then the `project_name` validator whose (stripped)
result becomes the stored field.  Pydantic collects all field errors; this
model reports the first, which no claim distinguishes. -/
def mkResearchMetadata (project_name hyp data_source collection_method : String) :
    Except String ResearchMetadata :=
  if lenOk project_name 1 200 = false then
    Except.error "project_name: length constraint violated"
  else
    match validate_project_name project_name with
    | Except.error e => Except.error e
    | Except.ok pn =>
      if lenOk hyp 1 1000 = false then
        Except.error "hypothesis: length constraint violated"
      else if lenOk data_source 1 200 = false then
        Except.error "data_source: length constraint violated"
      else if lenOk collection_method 1 200 = false then
        Except.error "collection_method: length constraint violated"
      else
        Except.ok ⟨pn, hyp, data_source, collection_method⟩

/-- The five `WorkflowType` enum values. -/
def workflowTypes : List String := ["csv", "json", "pdf", "xlsx", "txt"]

/-- The three `ProcessingRequirement` enum values. -/
def processingRequirementValues : List String :=
  ["cleaning-needed", "validation-required", "transformation-ready"]

/-- `TechnicalMetadata`: a validated workflow type plus the parsed processing
requirements. -/
structure TechnicalMetadata where
  workflow_type : String
  processing_requirements : List String
deriving DecidableEq

/-- `UploadInfo` minus the wall-clock timestamp (set from `datetime.utcnow()`
and not constrained by any claim). -/
structure UploadInfo where
  uploader : String
  original_filename : String
  stored_filename : String
  file_path : String
  file_size_bytes : Nat
  file_format : String
deriving DecidableEq

/-- Pydantic construction of `UploadInfo`: `file_size_bytes` carries a `gt=0`
constraint, everything else is unconstrained. -/
def mkUploadInfo (uploader original_filename stored_filename file_path : String)
    (file_size_bytes : Nat) (file_format : String) : Except String UploadInfo :=
  if 0 < file_size_bytes then
    Except.ok ⟨uploader, original_filename, stored_filename, file_path,
      file_size_bytes, file_format⟩
  else
    Except.error "1 validation error for UploadInfo: file_size_bytes must be greater than 0"

/-- `FileUploadRequest`. -/
structure FileUploadRequest where
  research_metadata : ResearchMetadata
  technical_metadata : TechnicalMetadata
deriving DecidableEq

/-- `FileUploadResponse`, minus the constant `success`/`message` fields. -/
structure FileUploadResponse where
  upload_info : UploadInfo
  research_metadata : ResearchMetadata
  technical_metadata : TechnicalMetadata
  metadata_file_path : String
deriving DecidableEq

/-! ## Timestamps (`datetime.utcnow()` plus `strftime`) -/

/-- A UTC timestamp, passed explicitly where the source calls
`datetime.utcnow()`. -/
structure DateTime where
  year : Nat
  month : Nat
  day : Nat
  hour : Nat
  minute : Nat
  second : Nat

/-- Two-digit zero padding, as in `strftime`'s `%m`/`%d`/`%H`/`%M`/`%S`. -/
def pad2 (n : Nat) : String := if n < 10 then "0" ++ toString n else toString n

/-- Four-digit zero padding, as in `strftime`'s `%Y`. -/
def pad4 (n : Nat) : String :=
  if n < 10 then "000" ++ toString n
  else if n < 100 then "00" ++ toString n
  else if n < 1000 then "0" ++ toString n
  else toString n

/-- `strftime('%Y-%m-%d')`. -/
def fmtDate (t : DateTime) : String :=
  pad4 t.year ++ "-" ++ pad2 t.month ++ "-" ++ pad2 t.day

/-- `strftime('%Y%m%d_%H%M%S')`. -/
def fmtCompact (t : DateTime) : String :=
  pad4 t.year ++ pad2 t.month ++ pad2 t.day ++ "_" ++
    pad2 t.hour ++ pad2 t.minute ++ pad2 t.second

/-! ## Naming and layout deriver (`services/volume_service.py`) -/

/-- Membership in the kept class of `re.sub(r'[^\w\s-]', '', name)`:
word characters (`[a-zA-Z0-9_]` in ASCII), whitespace and hyphens survive. -/
def keepFolderChar (c : Char) : Bool :=
  isAsciiAlphanumB c || c == '_' || pyIsSpace c || c == '-'

/-- Membership in the run class of `re.sub(r'[-\s]+', '-', ...)`. -/
def isSpaceOrHyphen (c : Char) : Bool := c == '-' || pyIsSpace c

/-- `re.sub(r'[-\s]+', '-', l)`: each maximal run of spaces/hyphens becomes a
single hyphen. `inRun` records whether the previous character was part of a
run already replaced. -/
def collapseAux : List Char → Bool → List Char
  | [], _ => []
  | c :: rest, inRun =>
    if isSpaceOrHyphen c then
      (if inRun then [] else ['-']) ++ collapseAux rest true
    else
      c :: collapseAux rest false

/-- `VolumeService._sanitize_folder_name`: strip characters outside
`[\w\s-]`, `strip()` surrounding whitespace, collapse runs of space/hyphen
into one hyphen, lowercase. -/
def _sanitize_folder_name (name : String) : String :=
  pyLower (String.mk (collapseAux (pyStripL (name.data.filter keepFolderChar)) false))

/-- `VolumeService._generate_filename`: `rsplit('.', 1)` the original name
into base/extension, insert the workflow type and a `%Y%m%d_%H%M%S`
timestamp, re-attach a nonempty extension. -/
def _generate_filename (original_filename workflow_type : String) (ts : DateTime) : String :=
  let parts := pySplitStr '.' original_filename
  let base_name := if parts.length == 1 then original_filename else pyJoin "." parts.dropLast
  let extension := if parts.length == 1 then "" else pyLastD "" parts
  let new_name := base_name ++ "_" ++ workflow_type ++ "_" ++ fmtCompact ts
  if extension ≠ "" then new_name ++ "." ++ extension else new_name

/-- `VolumeService._get_project_folder_path`:
`{volume_path}/{sanitized_project}/{YYYY-MM-DD}`. -/
def _get_project_folder_path (cfg : Config) (project_name : String) (ts : DateTime) : String :=
  cfg.volumePath ++ "/" ++ _sanitize_folder_name project_name ++ "/" ++ fmtDate ts

/-- One call to the Databricks files client: `create_directory` (from
`create_project_folder`) or `upload` (a blob or sidecar write). -/
inductive StorageOp where
  | createDirectory (path : String)
  | upload (path : String)
deriving DecidableEq

/-- `VolumeService.upload_file`: ensure the project/date folder, derive the
stored filename, upload the blob.  Returns
`((stored_filename, full_file_path), trace of storage calls)`; the remote
client is modeled as always succeeding (the claims under verification only
concern the validation path and the write ordering). -/
def vs_upload_file (cfg : Config) (original_filename project_name workflow_type : String)
    (ts : DateTime) : (String × String) × List StorageOp :=
  let folder_path := _get_project_folder_path cfg project_name ts
  let stored_filename := _generate_filename original_filename workflow_type ts
  let full_file_path := folder_path ++ "/" ++ stored_filename
  ((stored_filename, full_file_path),
   [StorageOp.createDirectory folder_path, StorageOp.upload full_file_path])

/-- The sidecar path computed by `VolumeService.save_metadata`:
`rsplit('/', 1)` into folder and filename, drop the filename's extension
(`rsplit('.', 1)`), prepend `metadata_`, append `.json`, same folder.
(When the path contains no `/` the source would raise `IndexError`; every
path reaching this function contains `/`, and the claims only exercise such
paths.) -/
def metadata_path_for (file_path : String) : String :=
  let path_parts := pySplitStr '/' file_path
  let folder_path := pyJoin "/" path_parts.dropLast
  let filename := pyLastD "" path_parts
  let name_parts := pySplitStr '.' filename
  let base_name := if name_parts.length == 1 then filename else pyJoin "." name_parts.dropLast
  folder_path ++ "/" ++ ("metadata_" ++ base_name ++ ".json")

/-- `VolumeService.save_metadata`: serialize and upload the sidecar JSON,
returning its path and the storage call. -/
def vs_save_metadata (file_path : String) : String × List StorageOp :=
  let mp := metadata_path_for file_path
  (mp, [StorageOp.upload mp])

/-! ## File validator and orchestrator (`services/upload_service.py`) -/

/-- The single-quote character of the source's f-strings (ASCII 39). -/
def squo : String := String.singleton (Char.ofNat 39)

/-- The 413 detail `f"File size exceeds maximum allowed size of {max_mb}MB"`,
where `max_mb = max_file_size / (1024*1024)` is a Python float that prints as
`<maxFileSizeMB>.0` for every configured integer megabyte value in the
float-exact range. -/
def sizeErrDetail (cfg : Config) : String :=
  "File size exceeds maximum allowed size of " ++ toString cfg.maxFileSizeMB ++ ".0MB"

/-- `file.filename.split('.')[-1].lower()`, the extension as the source
computes it (the whole filename when it contains no dot). -/
def fileExt (filename : String) : String :=
  pyLower (String.mk (pyLastD [] (pySplit '.' filename.data)))

/-- The 400 detail
`f"File type '.{ext}' is not allowed. Allowed types: {', '.join(...)}"`. -/
def typeErrDetail (cfg : Config) (ext : String) : String :=
  "File type " ++ squo ++ "." ++ ext ++ squo ++ " is not allowed. Allowed types: " ++
    pyJoin ", " cfg.allowedTypes

/-- The size half of `UploadService._validate_file`:
`if file.size and file.size > self.max_file_size: raise HTTPException(413, ...)`
(`None` and `0` are falsy, so they skip the check). -/
def sizeCheck (cfg : Config) (file : UploadFile) : Except HTTPError Unit :=
  match file.size with
  | none => Except.ok ()
  | some sz =>
    if 0 < sz ∧ maxFileSize cfg < sz then Except.error ⟨413, sizeErrDetail cfg⟩
    else Except.ok ()

/-- The type half of `UploadService._validate_file`: guarded by the
truthiness of `file.filename` (a missing or empty filename skips the check
entirely), then the lowercased `split('.')[-1]` extension must be in the
allow-list. -/
def typeCheck (cfg : Config) (file : UploadFile) : Except HTTPError Unit :=
  match file.filename with
  | none => Except.ok ()
  | some fn =>
    if fn = "" then Except.ok ()
    else if cfg.allowedTypes.contains (fileExt fn) then Except.ok ()
    else Except.error ⟨400, typeErrDetail cfg (fileExt fn)⟩

/-- `UploadService._validate_file`: size check first, then type check. -/
def _validate_file (cfg : Config) (file : UploadFile) : Except HTTPError Unit :=
  match sizeCheck cfg file with
  | Except.error e => Except.error e
  | Except.ok _ => typeCheck cfg file

/-- The `file_extension` computation of `UploadService._create_upload_info`:
`''` unless `file.filename` is truthy, else `split('.')[-1].lower()`. -/
def extractExt (filename : Option String) : String :=
  match filename with
  | none => ""
  | some fn => if fn = "" then "" else fileExt fn

/-- `UploadService._create_upload_info`: build the `UploadInfo`
(`file.size or 0` for the size, which the model's `gt=0` constraint then
checks). -/
def _create_upload_info (file : UploadFile) (stored_filename file_path uploader_email : String) :
    Except String UploadInfo :=
  mkUploadInfo uploader_email (pyOrStr file.filename "unknown") stored_filename file_path
    (file.size.getD 0) (extractExt file.filename)

/-- `UploadService.process_upload`: validate, upload the blob, build
`UploadInfo`, write the sidecar, assemble the response.  An `HTTPException`
is re-raised as-is; any other exception (here: the pydantic failure of
`UploadInfo`) becomes `HTTPException(500, f"Upload failed: {e}")`.  The
second component is the trace of storage calls actually issued. -/
def process_upload (cfg : Config) (file : UploadFile) (upload_request : FileUploadRequest)
    (uploader_email : String) (ts : DateTime) :
    Except HTTPError FileUploadResponse × List StorageOp :=
  match _validate_file cfg file with
  | Except.error e => (Except.error e, [])
  | Except.ok _ =>
    let r := vs_upload_file cfg (pyOrStr file.filename "unknown")
      upload_request.research_metadata.project_name
      upload_request.technical_metadata.workflow_type ts
    match _create_upload_info file r.1.1 r.1.2 uploader_email with
    | Except.error msg => (Except.error ⟨500, "Upload failed: " ++ msg⟩, r.2)
    | Except.ok upload_info =>
      let m := vs_save_metadata r.1.2
      (Except.ok ⟨upload_info, upload_request.research_metadata,
        upload_request.technical_metadata, m.1⟩, r.2 ++ m.2)

/-! ## Router (`routers/upload.py`) -/

/-- The raw multipart form fields of `POST /upload/` used by the claims. -/
structure FormData where
  project_name : String
  hyp : String
  data_source : String
  collection_method : String
  workflow_type : String
  processing_requirements : String

/-- The processing-requirements parsing of `parse_form_data`: an empty (after
strip) string yields `[]`; otherwise split on commas, strip each token, keep
those that are valid `ProcessingRequirement` values and silently skip the
rest. -/
def parse_processing_requirements (s : String) : List String :=
  if pyStrip s = "" then []
  else ((pySplitStr ',' s).map pyStrip).filter
    (fun r => processingRequirementValues.contains r)

/-- `parse_form_data` (with FastAPI's `Form(...)` enum validation of
`workflow_type` folded in, since it runs before the function body): build the
validated `FileUploadRequest` or fail with the first validation error. -/
def parse_form_data (form : FormData) : Except String FileUploadRequest :=
  if (workflowTypes.contains form.workflow_type) = false then
    Except.error "workflow_type: value is not a valid enumeration member"
  else
    match mkResearchMetadata form.project_name form.hyp form.data_source
        form.collection_method with
    | Except.error e => Except.error e
    | Except.ok rm =>
      Except.ok ⟨rm, ⟨form.workflow_type,
        parse_processing_requirements form.processing_requirements⟩⟩

/-- The `upload_file` endpoint body: call `process_upload` and convert ANY
exception — including the service's own `HTTPException`s, which are
`Exception` subclasses — into `HTTPException(500, str(e))`, where Starlette's
`str(e)` is `f"{status_code}: {detail}"`. -/
def upload_file_route (cfg : Config) (file : UploadFile) (upload_request : FileUploadRequest)
    (uploader_email : String) (ts : DateTime) :
    Except HTTPError FileUploadResponse × List StorageOp :=
  let r := process_upload cfg file upload_request uploader_email ts
  match r.1 with
  | Except.ok resp => (Except.ok resp, r.2)
  | Except.error e =>
    (Except.error ⟨500, toString e.status_code ++ ": " ++ e.detail⟩, r.2)

/-- The full `POST /upload/` pipeline: the `parse_form_data` dependency runs
before the endpoint body, so a metadata validation failure aborts before any
service object touches storage. -/
def handle_upload (cfg : Config) (file : UploadFile) (form : FormData)
    (uploader_email : String) (ts : DateTime) :
    Except HTTPError FileUploadResponse × List StorageOp :=
  match parse_form_data form with
  | Except.error e => (Except.error ⟨500, e⟩, [])
  | Except.ok req => upload_file_route cfg file req uploader_email ts

/-! ## Helpers for stating the claims -/

/-- The status code of an error outcome. -/
def errStatus {α : Type} : Except HTTPError α → Option Nat
  | Except.error e => some e.status_code
  | Except.ok _ => none

/-- The `file_format` of a successful response. -/
def fmtOf : Except HTTPError FileUploadResponse → Option String
  | Except.ok r => some r.upload_info.file_format
  | Except.error _ => none

/-- An ASCII uppercase letter. -/
def isUpperAscii (c : Char) : Bool := 65 ≤ c.toNat && c.toNat ≤ 90

/-- No ASCII uppercase letter anywhere in the string. -/
def allLowerB (s : String) : Bool := s.data.all (fun c => !(isUpperAscii c))

/-- No two adjacent hyphens. -/
def noDoubleHyphen : List Char → Bool
  | [] => true
  | [_] => true
  | a :: b :: t => !(a == '-' && b == '-') && noDoubleHyphen (b :: t)

/-- Head character is a hyphen. -/
def headIsHyphen : List Char → Bool
  | [] => false
  | c :: _ => c == '-'

/-- The character class of claim C6/C2: `[A-Za-z0-9 _-]` (plain space only). -/
def claimProjectCharset (c : Char) : Bool :=
  isAsciiAlphanumB c || c == ' ' || c == '_' || c == '-'

/-! ## Concrete fixtures -/

/-- The default configuration: 100 MB, default allow-list, default volume
path. -/
def defaultCfg : Config :=
  ⟨100, defaultAllowedTypes, "/Volumes/jmr_demo/intake/storage"⟩

/-- The fixed timestamp 2024-01-15T10:30:00Z of claim C3. -/
def ts0 : DateTime := ⟨2024, 1, 15, 10, 30, 0⟩

/-- A valid research-metadata fixture. -/
def rm0 : ResearchMetadata := ⟨"Acme Corp", "h", "survey", "manual"⟩

/-- A valid technical-metadata fixture. -/
def tm0 : TechnicalMetadata := ⟨"csv", []⟩

/-- A valid upload-request fixture. -/
def req0 : FileUploadRequest := ⟨rm0, tm0⟩

/-! ## Helper lemmas about the string primitives -/

/-- Repacking a string's characters is the identity. -/
theorem string_mk_data (s : String) : String.mk s.data = s := rfl

/-- Lowercasing never produces an ASCII uppercase letter. -/
theorem isUpperAscii_pyLowerChar (c : Char) : isUpperAscii (pyLowerChar c) = false := by
  unfold pyLowerChar
  split
  · next h =>
    obtain ⟨h1, h2⟩ := h
    obtain ⟨n, hn⟩ : ∃ n, c.toNat = n := ⟨_, rfl⟩
    rw [hn] at h1 h2 ⊢
    interval_cases n <;> decide
  · next h =>
    simp only [isUpperAscii, Bool.and_eq_false_imp, decide_eq_true_eq,
      decide_eq_false_iff_not]
    intro h1 h2
    exact h ⟨h1, h2⟩

/-- Lowercasing maps the hyphen to itself and nothing else to a hyphen. -/
theorem pyLowerChar_beq_hyphen (c : Char) : (pyLowerChar c == '-') = (c == '-') := by
  unfold pyLowerChar
  split
  · next h =>
    obtain ⟨h1, h2⟩ := h
    have hc : (c == '-') = false := by
      apply beq_eq_false_iff_ne.mpr
      intro hEq
      rw [hEq] at h1
      exact absurd h1 (by decide)
    rw [hc]
    obtain ⟨n, hn⟩ : ∃ n, c.toNat = n := ⟨_, rfl⟩
    rw [hn] at h1 h2 ⊢
    interval_cases n <;> decide
  · rfl

/-- If `strip` removes everything, every character was whitespace. -/
theorem all_space_of_pyStripL_nil {l : List Char} (h : pyStripL l = []) :
    ∀ c ∈ l, pyIsSpace c = true := by
  unfold pyStripL at h
  rw [List.reverse_eq_nil_iff, List.dropWhile_eq_nil_iff] at h
  intro c hc
  rw [← List.takeWhile_append_dropWhile (p := pyIsSpace) (l := l)] at hc
  rcases List.mem_append.mp hc with h1 | h2
  · exact List.mem_takeWhile_imp h1
  · exact h c (List.mem_reverse.mpr h2)

/-- `pySplit` never returns the empty list. -/
theorem pySplit_ne_nil (sep : Char) (l : List Char) : pySplit sep l ≠ [] := by
  cases l with
  | nil => simp [pySplit]
  | cons c rest =>
    simp only [pySplit]
    cases pySplit sep rest with
    | nil => simp
    | cons h t =>
      by_cases hc : c = sep
      · simp [hc]
      · simp [hc]

/-- The one-step equation of `pySplit` once the tail's split is known. -/
theorem pySplit_cons_eq (sep c : Char) (rest p : List Char) (t : List (List Char))
    (hr : pySplit sep rest = p :: t) :
    pySplit sep (c :: rest) = if c = sep then [] :: p :: t else (c :: p) :: t := by
  simp only [pySplit, hr]

/-- Splitting a list that does not contain the separator returns the list
itself as the only piece. -/
theorem pySplit_of_not_mem (sep : Char) (l : List Char) (h : sep ∉ l) :
    pySplit sep l = [l] := by
  induction l with
  | nil => rfl
  | cons c rest ih =>
    have h1 : ¬ c = sep := fun e => h (e ▸ List.mem_cons_self c rest)
    have h2 : sep ∉ rest := fun hm => h (List.mem_cons_of_mem c hm)
    rw [pySplit_cons_eq sep c rest rest [] (ih h2), if_neg h1]

/-- Splitting a list that does contain the separator yields at least two
pieces. -/
theorem two_le_length_pySplit (sep : Char) (l : List Char) (h : sep ∈ l) :
    2 ≤ (pySplit sep l).length := by
  induction l with
  | nil => cases h
  | cons c rest ih =>
    cases hr : pySplit sep rest with
    | nil => exact absurd hr (pySplit_ne_nil sep rest)
    | cons p t =>
      rw [pySplit_cons_eq sep c rest p t hr]
      by_cases hc : c = sep
      · rw [if_pos hc]
        simp
      · rw [if_neg hc]
        have hm : sep ∈ rest := by
          rcases List.mem_cons.mp h with h' | h'
          · exact absurd h'.symm hc
          · exact h'
        have := ih hm
        rw [hr] at this
        simpa using this

/-- `pyLastD` ignores everything before the last element of a nonempty
tail. -/
theorem pyLastD_cons_cons {α : Type} (d : α) (x y : α) (t : List α) :
    pyLastD d (x :: y :: t) = pyLastD d (y :: t) := rfl

/-- The last piece of a split at the final separator occurrence is the part
after that occurrence. -/
theorem pyLastD_pySplit (sep : Char) (pre post : List Char) (h : sep ∉ post) :
    pyLastD [] (pySplit sep (pre ++ sep :: post)) = post := by
  induction pre with
  | nil =>
    rw [List.nil_append,
      pySplit_cons_eq sep sep post post [] (pySplit_of_not_mem sep post h), if_pos rfl]
    rfl
  | cons c pre ih =>
    have hmem : sep ∈ pre ++ sep :: post :=
      List.mem_append.mpr (Or.inr (List.mem_cons_self _ _))
    cases hr : pySplit sep (pre ++ sep :: post) with
    | nil => exact absurd hr (pySplit_ne_nil _ _)
    | cons p t =>
      have hlen : 2 ≤ (p :: t).length := by
        rw [← hr]; exact two_le_length_pySplit sep _ hmem
      cases t with
      | nil => simp at hlen
      | cons q t2 =>
        rw [List.cons_append, pySplit_cons_eq sep c _ p (q :: t2) hr]
        have hbase : pyLastD ([] : List Char) (p :: q :: t2) = post := by rw [← hr, ih]
        by_cases hc : c = sep
        · rw [if_pos hc]
          rw [show pyLastD ([] : List Char) ([] :: p :: q :: t2) =
            pyLastD [] (p :: q :: t2) from rfl]
          exact hbase
        · rw [if_neg hc, pyLastD_cons_cons]
          rw [show pyLastD ([] : List Char) (q :: t2) =
            pyLastD [] (p :: q :: t2) from rfl]
          exact hbase

/-- On a dot-free nonempty filename, `split('.')[-1].lower()` is the whole
lowercased filename. -/
theorem fileExt_of_no_dot (f : String) (h : '.' ∉ f.data) : fileExt f = pyLower f := by
  unfold fileExt
  rw [pySplit_of_not_mem _ _ h]
  rfl

/-- On a filename whose final dot separates `pre` from `post`,
`split('.')[-1].lower()` is the lowercased `post`. -/
theorem fileExt_of_last_dot (f : String) (pre post : List Char)
    (hf : f.data = pre ++ '.' :: post) (h : '.' ∉ post) :
    fileExt f = pyLower (String.mk post) := by
  unfold fileExt
  rw [hf, pyLastD_pySplit _ _ _ h]

/-! ## Lemmas about the folder-name sanitizer -/

/-- `noDoubleHyphen` of a cons, expressed through the head of the tail. -/
theorem noDoubleHyphen_cons (a : Char) (l : List Char) :
    noDoubleHyphen (a :: l) = (!(a == '-' && headIsHyphen l) && noDoubleHyphen l) := by
  cases l with
  | nil => simp [noDoubleHyphen, headIsHyphen]
  | cons b t => rfl

/-- A character outside the space/hyphen run class is not a hyphen. -/
theorem beq_hyphen_false_of_not_run (c : Char) (h : isSpaceOrHyphen c = false) :
    (c == '-') = false := by
  unfold isSpaceOrHyphen at h
  exact (Bool.or_eq_false_iff.mp h).1

/-- While inside a replaced run, the collapsed output never starts with a
hyphen. -/
theorem headIsHyphen_collapseAux_true (l : List Char) :
    headIsHyphen (collapseAux l true) = false := by
  induction l with
  | nil => rfl
  | cons c t ih =>
    by_cases h : isSpaceOrHyphen c = true
    · simpa [collapseAux, h] using ih
    · rw [Bool.not_eq_true] at h
      simp [collapseAux, h, headIsHyphen, beq_hyphen_false_of_not_run c h]

/-- The collapsed output never contains two adjacent hyphens. -/
theorem noDoubleHyphen_collapseAux (l : List Char) :
    ∀ b, noDoubleHyphen (collapseAux l b) = true := by
  induction l with
  | nil => intro b; rfl
  | cons c t ih =>
    intro b
    by_cases h : isSpaceOrHyphen c = true
    · cases b with
      | false =>
        have hstep : collapseAux (c :: t) false = '-' :: collapseAux t true := by
          simp [collapseAux, h]
        rw [hstep, noDoubleHyphen_cons, headIsHyphen_collapseAux_true, ih true]
        simp
      | true =>
        simpa [collapseAux, h] using ih true
    · rw [Bool.not_eq_true] at h
      simp only [collapseAux, h, Bool.false_eq_true, if_false]
      rw [noDoubleHyphen_cons, beq_hyphen_false_of_not_run c h, ih false]
      simp

/-- Hyphen adjacency survives per-character lowercasing unchanged. -/
theorem noDoubleHyphen_map_pyLowerChar (l : List Char) :
    noDoubleHyphen (l.map pyLowerChar) = noDoubleHyphen l := by
  induction l with
  | nil => rfl
  | cons a t ih =>
    cases t with
    | nil => rfl
    | cons b t2 =>
      simp only [List.map_cons] at ih ⊢
      rw [show noDoubleHyphen (pyLowerChar a :: pyLowerChar b :: List.map pyLowerChar t2) =
        (!(pyLowerChar a == '-' && pyLowerChar b == '-') &&
          noDoubleHyphen (pyLowerChar b :: List.map pyLowerChar t2)) from rfl]
      rw [show noDoubleHyphen (a :: b :: t2) =
        (!(a == '-' && b == '-') && noDoubleHyphen (b :: t2)) from rfl]
      rw [pyLowerChar_beq_hyphen a, pyLowerChar_beq_hyphen b, ih]

/-! ## Claim theorems -/

/-- C1: the claim says a file failing the size policy surfaces to the caller
of `POST /upload/` with the 413-equivalent status and a type-policy failure
with the 400-equivalent status, never a 500-equivalent.  On the code this is
false: `UploadService` does raise `HTTPException(413)` / `HTTPException(400)`
and re-raises them untouched, but the endpoint body's
`except Exception as e: raise HTTPException(status_code=500, detail=str(e))`
also catches `HTTPException` (an `Exception` subclass), so the caller
receives status 500 wrapping the original status in the detail text for both
policy failures. -/
theorem c1_policy_errors_surface_as_500 :
    (upload_file_route defaultCfg ⟨some "data.csv", some 104857601⟩ req0
        "user@example.com" ts0).1 =
      Except.error ⟨500, "413: File size exceeds maximum allowed size of 100.0MB"⟩ ∧
    errStatus (upload_file_route defaultCfg ⟨some "virus.exe", some 10⟩ req0
        "user@example.com" ts0).1 = some 500 :=
  ⟨rfl, rfl⟩

/-- C2: the claim (and the spec's "empty-after-trim is an error") says a
project name that is all spaces must fail validation.  On the code it does
not: `" "` satisfies `min_length=1` on the raw value and matches
`^[a-zA-Z0-9\s\-_]+$` (spaces are `\s`), and the validator's stripped return
value `""` is never re-checked, so `ResearchMetadata` validates successfully
with an empty `project_name`. -/
theorem c2_space_only_project_name_accepted :
    mkResearchMetadata " " "Test" "survey" "manual" =
      Except.ok ⟨"", "Test", "survey", "manual"⟩ :=
  rfl

/-- C3: naming determinism.  For project "Acme Corp", workflow `csv`,
filename "data.csv" and the fixed timestamp 2024-01-15T10:30:00Z, the derived
folder is `{storage_root}/acme-corp/2024-01-15` (for every storage root), the
stored filename is `data_csv_20240115_103000.csv`, and the sidecar is
`metadata_data_csv_20240115_103000.json` in that same folder. -/
theorem c3_naming_determinism :
    (∀ root : String,
      _get_project_folder_path ⟨100, defaultAllowedTypes, root⟩ "Acme Corp" ts0 =
        root ++ "/acme-corp/2024-01-15") ∧
    _generate_filename "data.csv" "csv" ts0 = "data_csv_20240115_103000.csv" ∧
    metadata_path_for
        "/Volumes/jmr_demo/intake/storage/acme-corp/2024-01-15/data_csv_20240115_103000.csv" =
      "/Volumes/jmr_demo/intake/storage/acme-corp/2024-01-15/metadata_data_csv_20240115_103000.json" := by
  refine ⟨?_, rfl, rfl⟩
  intro root
  unfold _get_project_folder_path
  rw [show _sanitize_folder_name "Acme Corp" = "acme-corp" from rfl,
    show fmtDate ts0 = "2024-01-15" from rfl]
  apply String.ext
  simp only [String.data_append, List.append_assoc]
  exact congrArg (fun l => root.data ++ l) (by decide)

/-- C3 witness: the folder-path component instantiated at the default storage
root. -/
theorem c3_naming_determinism_witness :
    _get_project_folder_path ⟨100, defaultAllowedTypes, "/Volumes/jmr_demo/intake/storage"⟩
      "Acme Corp" ts0 = "/Volumes/jmr_demo/intake/storage/acme-corp/2024-01-15" :=
  c3_naming_determinism.1 "/Volumes/jmr_demo/intake/storage"

/-- C4 counterexample: the claim says every dot-less filename is treated as
having an empty extension and is rejected, "in particular a dot-less filename
equal to an allowed type such as csv is still rejected".  On the code,
`'csv'.split('.')[-1]` is `'csv'` itself, which IS in the allow-list, so the
file passes validation. -/
theorem c4_counterexample_dotless_csv_accepted :
    _validate_file defaultCfg ⟨some "csv", some 10⟩ = Except.ok () :=
  rfl

/-- C4 amended: for a nonempty filename containing no dot, the type check
uses the ENTIRE lowercased filename as the extension — the file is accepted
exactly when that lowercased filename is in the configured allow-list, and
rejected with the 400 type error naming it otherwise. -/
theorem c4_dotless_filename_vs_allowlist (cfg : Config) (fname : String) (osz : Option Nat)
    (hdot : '.' ∉ fname.data) (hne : fname ≠ "") :
    typeCheck cfg ⟨some fname, osz⟩ =
      (if cfg.allowedTypes.contains (pyLower fname) then Except.ok ()
       else Except.error ⟨400, typeErrDetail cfg (pyLower fname)⟩) := by
  have hred : typeCheck cfg ⟨some fname, osz⟩ =
      (if fname = "" then Except.ok ()
       else if cfg.allowedTypes.contains (fileExt fname) then Except.ok ()
       else Except.error ⟨400, typeErrDetail cfg (fileExt fname)⟩) := rfl
  rw [hred, if_neg hne, fileExt_of_no_dot fname hdot]

/-- C4 witness: the uppercase dot-less filename "CSV" is accepted (its
lowercasing is in the allow-list). -/
theorem c4_dotless_filename_vs_allowlist_witness :
    typeCheck defaultCfg ⟨some "CSV", some 1⟩ = Except.ok () := by
  rw [c4_dotless_filename_vs_allowlist defaultCfg "CSV" (some 1) (by decide) (by decide)]
  rfl

/-- C5: processing-requirements parsing keeps exactly the comma-separated
tokens that, after stripping, are members of the closed
`ProcessingRequirement` set, in their original order, silently dropping every
other token (the function is total — no error path); in particular the
spec's example input yields exactly
`["cleaning-needed", "validation-required"]`.  The general equation also
covers the all-whitespace early return: such a string contains no comma, so
the filter formula yields `[]` there too. -/
theorem c5_processing_requirements_filter :
    parse_processing_requirements "cleaning-needed, bogus-value, validation-required" =
      ["cleaning-needed", "validation-required"] ∧
    ∀ s : String, parse_processing_requirements s =
      ((pySplitStr ',' s).map pyStrip).filter
        (fun r => processingRequirementValues.contains r) := by
  refine ⟨rfl, ?_⟩
  intro s
  unfold parse_processing_requirements
  split
  · next h =>
    have hdata : pyStripL s.data = [] := congrArg String.data h
    have hws := all_space_of_pyStripL_nil hdata
    have hnc : ',' ∉ s.data := by
      intro hm
      have := hws ',' hm
      exact absurd this (by decide)
    unfold pySplitStr
    rw [pySplit_of_not_mem _ _ hnc]
    rw [show (([s.data].map String.mk).map pyStrip) = [pyStrip s] from rfl]
    rw [show pyStrip s = String.mk (pyStripL s.data) from rfl, hdata]
    rfl
  · rfl

/-- C6: for every input drawn from the claim's charset `[A-Za-z0-9 _-]`, the
folder-name sanitizer's output is lowercase (no ASCII uppercase letter
survives) and contains no two consecutive hyphens (runs of space/hyphen
collapse to one hyphen). -/
theorem c6_sanitizer_lowercase_no_double_hyphen (s : String)
    (_hcs : s.data.all claimProjectCharset = true) :
    allLowerB (_sanitize_folder_name s) = true ∧
    noDoubleHyphen (_sanitize_folder_name s).data = true := by
  constructor
  · unfold _sanitize_folder_name pyLower allLowerB
    rw [show (String.mk ((String.mk
      (collapseAux (pyStripL (s.data.filter keepFolderChar)) false)).data.map
        pyLowerChar)).data =
      ((collapseAux (pyStripL (s.data.filter keepFolderChar)) false).map
        pyLowerChar) from rfl]
    rw [List.all_map]
    apply List.all_eq_true.mpr
    intro c _
    simp [isUpperAscii_pyLowerChar]
  · unfold _sanitize_folder_name pyLower
    rw [show (String.mk ((String.mk
      (collapseAux (pyStripL (s.data.filter keepFolderChar)) false)).data.map
        pyLowerChar)).data =
      ((collapseAux (pyStripL (s.data.filter keepFolderChar)) false).map
        pyLowerChar) from rfl]
    rw [noDoubleHyphen_map_pyLowerChar]
    exact noDoubleHyphen_collapseAux _ false

/-- C6 witness: a concrete charset-conforming project name. -/
theorem c6_sanitizer_witness :
    allLowerB (_sanitize_folder_name "Acme  Corp--Test_1") = true ∧
    noDoubleHyphen (_sanitize_folder_name "Acme  Corp--Test_1").data = true :=
  c6_sanitizer_lowercase_no_double_hyphen "Acme  Corp--Test_1" (by decide)

/-- The size check once the reported size is known. -/
theorem sizeCheck_eq (cfg : Config) (file : UploadFile) (sz : Nat)
    (h : file.size = some sz) :
    sizeCheck cfg file =
      (if 0 < sz ∧ maxFileSize cfg < sz then
        Except.error ⟨413, sizeErrDetail cfg⟩
       else Except.ok ()) := by
  unfold sizeCheck
  rw [h]

/-- C7: file-size boundary.  A reported size exactly equal to the configured
byte ceiling passes the size check (and the whole validation, given the type
check passes); a size strictly above the ceiling fails the whole validation
with the 413 error whose detail carries the configured megabyte limit
(`"File size exceeds maximum allowed size of {maxFileSizeMB}.0MB"`). -/
theorem c7_size_ceiling_boundary (cfg : Config) (file : UploadFile) (sz : Nat) :
    (file.size = some (maxFileSize cfg) → sizeCheck cfg file = Except.ok ()) ∧
    (file.size = some sz → maxFileSize cfg < sz →
      _validate_file cfg file = Except.error ⟨413, sizeErrDetail cfg⟩) ∧
    (file.size = some (maxFileSize cfg) → typeCheck cfg file = Except.ok () →
      _validate_file cfg file = Except.ok ()) := by
  have hpass : file.size = some (maxFileSize cfg) → sizeCheck cfg file = Except.ok () := by
    intro h
    rw [sizeCheck_eq cfg file _ h, if_neg]
    intro hcon
    exact absurd hcon.2 (Nat.lt_irrefl _)
  refine ⟨hpass, ?_, ?_⟩
  · intro h hlt
    have hfail : sizeCheck cfg file = Except.error ⟨413, sizeErrDetail cfg⟩ := by
      rw [sizeCheck_eq cfg file _ h,
        if_pos ⟨Nat.lt_of_le_of_lt (Nat.zero_le _) hlt, hlt⟩]
    unfold _validate_file
    rw [hfail]
  · intro h hty
    unfold _validate_file
    rw [hpass h]
    exact hty

/-- C7 witness: with the default 100 MB ceiling, a 104857600-byte file passes
and a 104857601-byte file fails with the 413 error naming "100.0MB". -/
theorem c7_size_ceiling_boundary_witness :
    _validate_file defaultCfg ⟨some "data.csv", some 104857600⟩ = Except.ok () ∧
    _validate_file defaultCfg ⟨some "data.csv", some 104857601⟩ =
      Except.error ⟨413, "File size exceeds maximum allowed size of 100.0MB"⟩ := by
  constructor
  · exact (c7_size_ceiling_boundary defaultCfg ⟨some "data.csv", some 104857600⟩ 0).2.2
      rfl rfl
  · exact (c7_size_ceiling_boundary defaultCfg ⟨some "data.csv", some 104857601⟩
      104857601).2.1 rfl (by decide)

/-- C9: whenever metadata validation (the `parse_form_data` dependency) or a
file-policy check (`_validate_file`) fails, the `POST /upload/` pipeline
performs no storage operation at all — no folder creation, no blob write, no
sidecar write. -/
theorem c9_no_storage_on_validation_error (cfg : Config) (file : UploadFile)
    (form : FormData) (email : String) (ts : DateTime)
    (h : (∃ e, parse_form_data form = Except.error e) ∨
         (∃ e, _validate_file cfg file = Except.error e)) :
    (handle_upload cfg file form email ts).2 = [] := by
  unfold handle_upload
  cases hp : parse_form_data form with
  | error e => rfl
  | ok req =>
    rcases h with ⟨e, he⟩ | ⟨e, he⟩
    · rw [hp] at he
      exact absurd he (by simp)
    · unfold upload_file_route process_upload
      rw [he]

/-- C9 witness: a project name containing `/` fails metadata validation and
the pipeline issues no storage call. -/
theorem c9_no_storage_witness :
    (handle_upload defaultCfg ⟨some "data.csv", some 10⟩
      ⟨"bad/name", "h", "survey", "manual", "csv", ""⟩ "u@x" ts0).2 = [] :=
  c9_no_storage_on_validation_error defaultCfg ⟨some "data.csv", some 10⟩
    ⟨"bad/name", "h", "survey", "manual", "csv", ""⟩ "u@x" ts0 (Or.inl ⟨_, rfl⟩)

/-- C10: an upload whose reported size is `None` or `0` passes file
validation (the size guard's truthiness skips both), so the blob IS written
to storage; the subsequent `UploadInfo` construction then violates its
`file_size_bytes > 0` constraint, and the request fails as a 500-equivalent
with the folder creation and blob write already performed and no sidecar
written. -/
theorem c10_zero_size_blob_written_then_500 (cfg : Config) (file : UploadFile)
    (req : FileUploadRequest) (email : String) (ts : DateTime)
    (hsz : file.size = none ∨ file.size = some 0)
    (hty : typeCheck cfg file = Except.ok ()) :
    _validate_file cfg file = Except.ok () ∧
    errStatus (process_upload cfg file req email ts).1 = some 500 ∧
    (process_upload cfg file req email ts).2 =
      [StorageOp.createDirectory
         (_get_project_folder_path cfg req.research_metadata.project_name ts),
       StorageOp.upload
         (_get_project_folder_path cfg req.research_metadata.project_name ts ++ "/" ++
           _generate_filename (pyOrStr file.filename "unknown")
             req.technical_metadata.workflow_type ts)] := by
  have hval : _validate_file cfg file = Except.ok () := by
    have hs : sizeCheck cfg file = Except.ok () := by
      rcases hsz with h | h
      · unfold sizeCheck
        rw [h]
      · rw [sizeCheck_eq cfg file 0 h, if_neg]
        intro hcon
        exact absurd hcon.1 (Nat.lt_irrefl 0)
    unfold _validate_file
    rw [hs]
    exact hty
  have h0 : file.size.getD 0 = 0 := by
    rcases hsz with h | h <;> rw [h] <;> rfl
  have hcre : ∀ sf fp : String, _create_upload_info file sf fp email =
      Except.error
        "1 validation error for UploadInfo: file_size_bytes must be greater than 0" := by
    intro sf fp
    unfold _create_upload_info mkUploadInfo
    rw [h0, if_neg (Nat.lt_irrefl 0)]
  refine ⟨hval, ?_, ?_⟩
  · simp only [process_upload, hval, hcre]
    rfl
  · simp only [process_upload, hval, hcre]
    rfl

/-- C10 witness: a 0-byte `data.csv` upload writes the blob, then fails with
status 500 and no sidecar write. -/
theorem c10_zero_size_witness :
    _validate_file defaultCfg ⟨some "data.csv", some 0⟩ = Except.ok () ∧
    errStatus (process_upload defaultCfg ⟨some "data.csv", some 0⟩ req0 "u@x" ts0).1 =
      some 500 ∧
    (process_upload defaultCfg ⟨some "data.csv", some 0⟩ req0 "u@x" ts0).2 =
      [StorageOp.createDirectory
         (_get_project_folder_path defaultCfg req0.research_metadata.project_name ts0),
       StorageOp.upload
         (_get_project_folder_path defaultCfg req0.research_metadata.project_name ts0 ++
           "/" ++ _generate_filename
             (pyOrStr (some "data.csv") "unknown")
             req0.technical_metadata.workflow_type ts0)] :=
  c10_zero_size_blob_written_then_500 defaultCfg ⟨some "data.csv", some 0⟩ req0 "u@x" ts0
    (Or.inr rfl) rfl

/-- `extractExt` on a truthy filename is the `split('.')[-1].lower()`
extension. -/
theorem extractExt_some (f : String) (hne : f ≠ "") : extractExt (some f) = fileExt f := by
  have h : extractExt (some f) = if f = "" then "" else fileExt f := rfl
  rw [h, if_neg hne]

/-- C8 counterexample: the claim says `file_format` is the empty string when
the filename contains no dot.  The upload of the dot-less filename "csv"
succeeds (see C4) and its `file_format` is `"csv"`, not `""`. -/
theorem c8_counterexample_dotless_format_not_empty :
    fmtOf (process_upload defaultCfg ⟨some "csv", some 10⟩ req0 "u@x" ts0).1 =
      some "csv" ∧
    (some ("csv" : String) ≠ some "") :=
  ⟨rfl, by decide⟩

/-- C8 amended: for every successful upload, `file_format` is the lowercase
text after the LAST dot of the filename when the filename contains a dot; it
is the ENTIRE lowercased filename when the filename is nonempty and contains
no dot; and it is the empty string exactly in the remaining cases — a missing
or empty filename (whose type check is skipped entirely). -/
theorem c8_file_format_characterization (cfg : Config) (file : UploadFile)
    (req : FileUploadRequest) (email : String) (ts : DateTime)
    (hok : (process_upload cfg file req email ts).1.isOk = true) :
    (∀ f : String, file.filename = some f → f ≠ "" → '.' ∉ f.data →
        fmtOf (process_upload cfg file req email ts).1 = some (pyLower f)) ∧
    (∀ (f : String) (pre post : List Char), file.filename = some f →
        f.data = pre ++ '.' :: post → '.' ∉ post →
        fmtOf (process_upload cfg file req email ts).1 =
          some (pyLower (String.mk post))) ∧
    ((file.filename = none ∨ file.filename = some "") →
        fmtOf (process_upload cfg file req email ts).1 = some "") := by
  have key : fmtOf (process_upload cfg file req email ts).1 =
      some (extractExt file.filename) := by
    cases hv : _validate_file cfg file with
    | error e =>
      simp only [process_upload, hv] at hok
      exact Bool.noConfusion hok
    | ok u =>
      cases hc : _create_upload_info file
          (vs_upload_file cfg (pyOrStr file.filename "unknown")
            req.research_metadata.project_name
            req.technical_metadata.workflow_type ts).1.1
          (vs_upload_file cfg (pyOrStr file.filename "unknown")
            req.research_metadata.project_name
            req.technical_metadata.workflow_type ts).1.2
          email with
      | error msg =>
        simp only [process_upload, hv, hc] at hok
        exact Bool.noConfusion hok
      | ok info =>
        have hfmt : info.file_format = extractExt file.filename := by
          unfold _create_upload_info mkUploadInfo at hc
          by_cases hpos : 0 < file.size.getD 0
          · rw [if_pos hpos] at hc
            injection hc with h
            rw [← h]
          · rw [if_neg hpos] at hc
            exact absurd hc (by simp)
        simp only [process_upload, hv, hc, fmtOf]
        rw [hfmt]
  refine ⟨?_, ?_, ?_⟩
  · intro f hf hne hdot
    rw [key, hf]
    exact congrArg some ((extractExt_some f hne).trans (fileExt_of_no_dot f hdot))
  · intro f pre post hf hsplit hdot
    have hne : f ≠ "" := by
      intro h0
      subst h0
      have hnil : ([] : List Char) = pre ++ '.' :: post := hsplit
      cases pre with
      | nil => exact List.noConfusion hnil
      | cons a t => exact List.noConfusion hnil
    rw [key, hf]
    exact congrArg some ((extractExt_some f hne).trans
      (fileExt_of_last_dot f pre post hsplit hdot))
  · intro h
    rcases h with h | h <;> rw [key, h] <;> rfl

/-- C8 witness: the upload of "Data.CSV" succeeds with `file_format` equal to
the lowercased text after the last dot, `"csv"`. -/
theorem c8_file_format_characterization_witness :
    fmtOf (process_upload defaultCfg ⟨some "Data.CSV", some 10⟩ req0 "u@x" ts0).1 =
      some "csv" := by
  have h := (c8_file_format_characterization defaultCfg ⟨some "Data.CSV", some 10⟩ req0
    "u@x" ts0 rfl).2.1 "Data.CSV" "Data".data "CSV".data rfl (by decide) (by decide)
  exact h.trans (by decide)

/-- C5 witness: the filter equation instantiated at a concrete input with a
stripped valid token and an invalid one. -/
theorem c5_processing_requirements_witness :
    parse_processing_requirements " transformation-ready , x " =
      ((pySplitStr ',' " transformation-ready , x ").map pyStrip).filter
        (fun r => processingRequirementValues.contains r) :=
  c5_processing_requirements_filter.2 " transformation-ready , x "
